import Mathlib

/-!
Verification of the Recurring Entry Generation & Financial Projection Engine
of the Project-Management repository.

The Lean definitions below are a shallow embedding of the Python sources:

* `backend/services/recurring_transaction_service.py`
  (`generate_transactions_for_date`, `generate_transactions_for_month`)
* `backend/repositories/recurring_transaction_repository.py`
  (`get_templates_to_generate`)
* `backend/services/project_service.py`
  (`calculate_start_date`, `calculate_recurring_transactions_amount`,
  `ProjectService.get_project_financial_data`)
* `backend/services/contract_period_service.py`
  (`ContractPeriodService.check_and_renew_contract`, `create_contract_period`,
  `_calculate_financial_summary`, `_create_read_only_archive`)

Dates are calendar triples (year, month, day) compared lexicographically,
exactly as Python `datetime.date` compares.  Monetary amounts are rationals
(the sources use fixed-point numerics and Python floats; every claim settled
here depends only on exact small-denominator arithmetic).  The database is a
list of records; `db.add` becomes appending to the list and an aborted run
(uncommitted session) leaves the list unchanged.
-/

namespace PM

/-! ## Calendar utility -/

/-- A calendar date, as Python's `datetime.date` (year, month, day). -/
structure Dt where
  year : Nat
  month : Nat
  day : Nat
deriving DecidableEq, Repr

/-- Python `date` comparison: lexicographic on (year, month, day). -/
def Dt.ble (a b : Dt) : Bool :=
  if a.year ≠ b.year then a.year < b.year
  else if a.month ≠ b.month then a.month < b.month
  else a.day ≤ b.day

/-- `a < b` on dates, i.e. `¬ (b ≤ a)`. -/
def Dt.blt (a b : Dt) : Bool := !(Dt.ble b a)

/-- Python `max(a, b)` on two dates: `a` if `a >= b` else `b`. -/
def Dt.pyMax (a b : Dt) : Dt := if Dt.ble b a then a else b

/-- Python `min(a, b)` on two dates: `a` if `a <= b` else `b`. -/
def Dt.pyMin (a b : Dt) : Dt := if Dt.ble a b then a else b

/-- Gregorian leap-year rule, as Python's `calendar`/`datetime`. -/
def isLeap (y : Nat) : Bool := (y % 4 == 0 && y % 100 != 0) || y % 400 == 0

/-- Number of days of month `m` of year `y` (months 1–12). -/
def daysInMonth (y m : Nat) : Nat :=
  if m = 2 then (if isLeap y then 29 else 28)
  else if m = 4 ∨ m = 6 ∨ m = 9 ∨ m = 11 then 30
  else 31

/-- The day following `d` (Python `d + timedelta(days=1)`). -/
def Dt.nextDay (d : Dt) : Dt :=
  if d.day < daysInMonth d.year d.month then ⟨d.year, d.month, d.day + 1⟩
  else if d.month < 12 then ⟨d.year, d.month + 1, 1⟩
  else ⟨d.year + 1, 1, 1⟩

/-- The day preceding `d` (Python `d - timedelta(days=1)`). -/
def Dt.prevDay (d : Dt) : Dt :=
  if 1 < d.day then ⟨d.year, d.month, d.day - 1⟩
  else if 1 < d.month then ⟨d.year, d.month - 1, daysInMonth d.year (d.month - 1)⟩
  else ⟨d.year - 1, 12, 31⟩

/-- `d + timedelta(days=k)` for `k ≥ 0`. -/
def Dt.addDays : Dt → Nat → Dt
  | d, 0 => d
  | d, n + 1 => Dt.addDays d.nextDay n

/-- `d - timedelta(days=k)` for `k ≥ 0`. -/
def Dt.subDays : Dt → Nat → Dt
  | d, 0 => d
  | d, n + 1 => Dt.subDays d.prevDay n

/-- `d + timedelta(days=k)` for a signed `k`. -/
def Dt.addDaysI (d : Dt) (k : Int) : Dt :=
  if 0 ≤ k then d.addDays k.toNat else d.subDays (-k).toNat

/-- Leap days up to and including year `y` (proleptic Gregorian). -/
def leapsBefore (y : Nat) : Nat := y / 4 + y / 400 - y / 100

/-- Days of year `y` strictly before month `m`. -/
def daysBeforeMonth (y m : Nat) : Nat :=
  ((List.range (m - 1)).map (fun i => daysInMonth y (i + 1))).sum

/-- Rata-die day number of `d` (0001-01-01 ↦ 1); `a - b` in Python is
`toRD a - toRD b` days. -/
def Dt.toRD (d : Dt) : Nat :=
  365 * (d.year - 1) + leapsBefore (d.year - 1) + daysBeforeMonth d.year d.month + d.day

/-- First day of the month after `d`'s month, the idiom
`date(y+1, 1, 1) if m == 12 else date(y, m+1, 1)` repeated through the
sources. -/
def Dt.nextMonthFirst (d : Dt) : Dt :=
  if d.month == 12 then ⟨d.year + 1, 1, 1⟩ else ⟨d.year, d.month + 1, 1⟩

/-- Last calendar day of month `m` of year `y`, computed as in
`generate_transactions_for_month`: the day before the first of the next
month. -/
def lastDayOfMonth (y m : Nat) : Nat :=
  ((⟨y, m, 1⟩ : Dt).nextMonthFirst.prevDay).day

/-! ## Data model

Embeds `backend/models/transaction.py` and
`backend/models/recurring_transaction.py` (the fields this core reads).
`type`, `frequency` and `end_type` are kept as the strings the services
compare against ("Income"/"Expense", "Monthly",
"No End"/"After Occurrences"/"On Date"). -/

/-- A recurring transaction template
(`backend/models/recurring_transaction.py`). -/
structure RecurringTransactionTemplate where
  id : Nat
  project_id : Nat
  description : String
  type : String
  amount : ℚ
  category : Option String := none
  notes : Option String := none
  supplier_id : Option Nat := none
  frequency : String := "Monthly"
  day_of_month : Nat := 1
  start_date : Dt
  end_type : String := "No End"
  end_date : Option Dt := none
  max_occurrences : Option Nat := none
  is_active : Bool := true
deriving DecidableEq, Repr

/-- A ledger transaction (`backend/models/transaction.py`).
The `from_fund` column is queried by `project_service.py` and
`contract_period_service.py`; its model revision is not in the sources at
hand, so the field itself is Modelled from the spec: a boolean
fund/reserve-source flag on the ledger entry. -/
structure Transaction where
  id : Nat
  project_id : Nat
  recurring_template_id : Option Nat := none
  tx_date : Dt
  type : String
  amount : ℚ
  description : Option String := none
  category : Option String := none
  notes : Option String := none
  supplier_id : Option Nat := none
  is_generated : Bool := false
  from_fund : Bool := false
deriving DecidableEq, Repr

/-- Persistent generation-side state: the `transactions` table plus the
autoincrement counter for fresh primary keys. -/
structure GenDB where
  transactions : List Transaction
  nextId : Nat
deriving DecidableEq, Repr

/-! ## Generation engine -/

/-- `RecurringTransactionRepository.get_templates_to_generate`: active
templates whose `day_of_month` equals the target day, started on or before
the target, and whose end-condition clause passes (`No End` always;
`On Date` iff `end_date >= target` — an SQL NULL `end_date` fails the
comparison; `After Occurrences` unconditionally, the count check being left
to the service level). -/
def getTemplatesToGenerate (templates : List RecurringTransactionTemplate)
    (target : Dt) : List RecurringTransactionTemplate :=
  templates.filter fun t =>
    t.is_active &&
    t.day_of_month == target.day &&
    Dt.ble t.start_date target &&
    (t.end_type == "No End" ||
     (t.end_type == "On Date" &&
       (match t.end_date with
        | some e => Dt.ble target e
        | none => false)) ||
     (t.end_type == "After Occurrences" && true))

/-- The key of the idempotence check: does `tx` have the given
`recurring_template_id` and `tx_date`? -/
def txMatches (tx : Transaction) (tid : Nat) (d : Dt) : Bool :=
  tx.recurring_template_id == some tid && tx.tx_date == d

/-- The raw-SQL duplicate probe of `generate_transactions_for_date`:
first transaction with the given `recurring_template_id` and `tx_date`. -/
def findExisting (txs : List Transaction) (tid : Nat) (d : Dt) : Option Transaction :=
  txs.find? fun tx => txMatches tx tid d

/-- The service-level end-condition check of
`generate_transactions_for_date`: skip when the template ends on a date
strictly before the target. -/
def serviceEndSkip (t : RecurringTransactionTemplate) (target : Dt) : Bool :=
  t.end_type == "On Date" &&
    (match t.end_date with
     | some e => Dt.blt e target
     | none => false)

/-- The transaction inserted for a firing template (the `transaction_data`
dict of the service, with the fresh autoincrement id). -/
def mkGeneratedTx (nid : Nat) (t : RecurringTransactionTemplate) (target : Dt) :
    Transaction :=
  { id := nid
    project_id := t.project_id
    recurring_template_id := some t.id
    tx_date := target
    type := t.type
    amount := t.amount
    description := some t.description
    category := t.category
    notes := t.notes
    supplier_id := t.supplier_id
    is_generated := true
    from_fund := false }

/-- One iteration of the template loop of `generate_transactions_for_date`:
skip when a transaction for (template, date) already exists, skip when the
`On Date` end condition fails, otherwise insert a fresh generated
transaction. -/
def genStep (target : Dt) (db : GenDB) (t : RecurringTransactionTemplate) : GenDB :=
  match findExisting db.transactions t.id target with
  | some _ => db
  | none =>
    if serviceEndSkip t target then db
    else { transactions := db.transactions ++ [mkGeneratedTx db.nextId t target]
           nextId := db.nextId + 1 }

/-- `RecurringTransactionService.generate_transactions_for_date`
(success path: every insert succeeds and the session commits). -/
def generateTransactionsForDate (templates : List RecurringTransactionTemplate)
    (target : Dt) (db : GenDB) : GenDB :=
  (getTemplatesToGenerate templates target).foldl (genStep target) db

/-- A sequence of invocations of `generate_transactions_for_date`, one per
listed target date. -/
def runDates (templates : List RecurringTransactionTemplate)
    (dates : List Dt) (db : GenDB) : GenDB :=
  dates.foldl (fun s d => generateTransactionsForDate templates d s) db

/-- One iteration of the `day_of_month > last_day` fallback loop of
`generate_transactions_for_month`: for an active template whose day
overflows the month, insert on the last calendar day unless an entry
already exists, the template has not started, or its `On Date` end
condition fails. -/
def monthOverflowStep (y m lastDay : Nat) (db : GenDB)
    (t : RecurringTransactionTemplate) : GenDB :=
  if lastDay < t.day_of_month then
    match findExisting db.transactions t.id ⟨y, m, lastDay⟩ with
    | some _ => db
    | none =>
      if Dt.ble t.start_date ⟨y, m, lastDay⟩ then
        if serviceEndSkip t ⟨y, m, lastDay⟩ then db
        else { transactions :=
                 db.transactions ++ [mkGeneratedTx db.nextId t ⟨y, m, lastDay⟩]
               nextId := db.nextId + 1 }
      else db
  else db

/-- `RecurringTransactionService.generate_transactions_for_month`: run the
per-date generation for each day 1..last_day of the month, then the
fallback loop over the active templates whose `day_of_month` exceeds
`last_day`. -/
def generateTransactionsForMonth (templates : List RecurringTransactionTemplate)
    (y m : Nat) (db : GenDB) : GenDB :=
  let lastDay := lastDayOfMonth y m
  let db1 := (List.range lastDay).foldl
    (fun st i => generateTransactionsForDate templates ⟨y, m, i + 1⟩ st) db
  (templates.filter (fun t => t.is_active)).foldl (monthOverflowStep y m lastDay) db1

/-! ## Counting (template, date) pairs and the uniqueness invariant -/

/-- Number of stored transactions materialized for the pair
(template `tid`, date `d`). -/
def countPair (txs : List Transaction) (tid : Nat) (d : Dt) : Nat :=
  (txs.filter fun tx => txMatches tx tid d).length

/-- `b` does not collide with `a` on the (template, date) key (transactions
without a template reference never collide). -/
def pairOK (a b : Transaction) : Bool :=
  !(a.recurring_template_id.isSome &&
    a.recurring_template_id == b.recurring_template_id &&
    a.tx_date == b.tx_date)

/-- No two stored transactions share a (template, date) key: the
idempotence invariant on the transactions table. -/
def noDupB : List Transaction → Bool
  | [] => true
  | a :: l => l.all (fun b => pairOK a b) && noDupB l

theorem countPair_append (l₁ l₂ : List Transaction) (tid : Nat) (d : Dt) :
    countPair (l₁ ++ l₂) tid d = countPair l₁ tid d + countPair l₂ tid d := by
  simp [countPair, List.filter_append]

theorem countPair_pos_iff (txs : List Transaction) (tid : Nat) (d : Dt) :
    0 < countPair txs tid d ↔ ∃ tx ∈ txs, txMatches tx tid d = true := by
  constructor
  · intro h
    rcases List.exists_mem_of_length_pos h with ⟨tx, htx⟩
    exact ⟨tx, (List.mem_filter.mp htx).1, (List.mem_filter.mp htx).2⟩
  · rintro ⟨tx, hmem, hm⟩
    exact List.length_pos.mpr (fun hnil =>
      (List.filter_eq_nil_iff.mp hnil tx hmem) hm)

theorem findExisting_eq_none_iff (txs : List Transaction) (tid : Nat) (d : Dt) :
    findExisting txs tid d = none ↔ ∀ tx ∈ txs, txMatches tx tid d = false := by
  simp [findExisting, List.find?_eq_none]

theorem findExisting_eq_some_mem {txs : List Transaction} {tid : Nat} {d : Dt}
    {tx : Transaction} (h : findExisting txs tid d = some tx) :
    tx ∈ txs ∧ txMatches tx tid d = true := by
  have h' : txs.find? (fun a => txMatches a tid d) = some tx := h
  exact ⟨List.mem_of_find?_eq_some h', by simpa using List.find?_some h'⟩

theorem noDupB_append_singleton (l : List Transaction) (x : Transaction) :
    noDupB (l ++ [x]) = (noDupB l && l.all (fun a => pairOK a x)) := by
  induction l with
  | nil => simp [noDupB]
  | cons a l ih =>
    show ((l ++ [x]).all (fun b => pairOK a b) && noDupB (l ++ [x])) = _
    rw [List.all_append, ih]
    cases h1 : l.all (fun b => pairOK a b) <;> cases h2 : noDupB l <;>
      cases h3 : pairOK a x <;>
        simp [noDupB, h1, h2, h3]

theorem txMatches_some {tx : Transaction} {tid : Nat} {d : Dt}
    (h : txMatches tx tid d = true) :
    tx.recurring_template_id = some tid ∧ tx.tx_date = d := by
  simp only [txMatches, Bool.and_eq_true, beq_iff_eq] at h
  exact h

theorem noDupB_countPair_le_one {txs : List Transaction}
    (h : noDupB txs = true) (tid : Nat) (d : Dt) :
    countPair txs tid d ≤ 1 := by
  induction txs with
  | nil => simp [countPair]
  | cons a l ih =>
    simp only [noDupB, Bool.and_eq_true, List.all_eq_true] at h
    by_cases hm : txMatches a tid d = true
    · have hzero : countPair l tid d = 0 := by
        by_contra hne
        have hpos : 0 < countPair l tid d := Nat.pos_of_ne_zero hne
        rcases (countPair_pos_iff l tid d).mp hpos with ⟨b, hbmem, hbm⟩
        have hok := h.1 b hbmem
        rcases txMatches_some hm with ⟨ha1, ha2⟩
        rcases txMatches_some hbm with ⟨hb1, hb2⟩
        simp [pairOK, ha1, ha2, hb1, hb2] at hok
      have hcons : countPair (a :: l) tid d = countPair l tid d + 1 := by
        simp [countPair, List.filter_cons, hm]
      omega
    · have : countPair (a :: l) tid d = countPair l tid d := by
        simp [countPair, List.filter_cons, hm]
      rw [this]
      exact ih h.2

/-- The per-template step of the generation loop only ever appends, and the
appended transaction (when any) is the freshly generated one. -/
theorem genStep_extends (target : Dt) (db : GenDB)
    (t : RecurringTransactionTemplate) :
    (genStep target db t).transactions = db.transactions ∨
    (findExisting db.transactions t.id target = none ∧
      serviceEndSkip t target = false ∧
      (genStep target db t).transactions =
        db.transactions ++ [mkGeneratedTx db.nextId t target]) := by
  unfold genStep
  cases hfe : findExisting db.transactions t.id target with
  | some tx => exact Or.inl rfl
  | none =>
    by_cases hskip : serviceEndSkip t target = true
    · simp [hskip]
    · simp only [Bool.not_eq_true] at hskip
      simp [hskip, hfe]

/-- The template loop of `generate_transactions_for_date` only appends, and
every appended transaction is the generated transaction of one of the
looped-over templates. -/
theorem foldl_genStep_extends (target : Dt) :
    ∀ (ts : List RecurringTransactionTemplate) (db : GenDB),
      ∃ new, (ts.foldl (genStep target) db).transactions = db.transactions ++ new ∧
        ∀ tx ∈ new, ∃ t nid, t ∈ ts ∧ tx = mkGeneratedTx nid t target := by
  intro ts
  induction ts with
  | nil => intro db; exact ⟨[], by simp⟩
  | cons t ts ih =>
    intro db
    rcases ih (genStep target db t) with ⟨new, hnew, hprop⟩
    rcases genStep_extends target db t with heq | ⟨_, _, heq⟩
    · refine ⟨new, ?_, ?_⟩
      · simpa [heq] using hnew
      · intro tx htx
        rcases hprop tx htx with ⟨u, nid, hu, htxeq⟩
        exact ⟨u, nid, List.mem_cons_of_mem t hu, htxeq⟩
    · refine ⟨mkGeneratedTx db.nextId t target :: new, ?_, ?_⟩
      · simpa [heq, List.append_assoc] using hnew
      · intro tx htx
        rcases List.mem_cons.mp htx with htxeq | htxmem
        · exact ⟨t, db.nextId, List.mem_cons_self t ts, htxeq⟩
        · rcases hprop tx htxmem with ⟨u, nid, hu, htxeq⟩
          exact ⟨u, nid, List.mem_cons_of_mem t hu, htxeq⟩

theorem txMatches_mkGeneratedTx (nid : Nat) (t : RecurringTransactionTemplate)
    (target : Dt) (tid : Nat) (d : Dt) :
    txMatches (mkGeneratedTx nid t target) tid d = (t.id == tid && target == d) := by
  simp [txMatches, mkGeneratedTx]

theorem genStep_noDup {db : GenDB} (target : Dt)
    (t : RecurringTransactionTemplate)
    (h : noDupB db.transactions = true) :
    noDupB (genStep target db t).transactions = true := by
  rcases genStep_extends target db t with heq | ⟨hfe, _, heq⟩
  · rwa [heq]
  · rw [heq, noDupB_append_singleton, Bool.and_eq_true, List.all_eq_true]
    refine ⟨h, fun a hamem => ?_⟩
    have hnm := (findExisting_eq_none_iff db.transactions t.id target).mp hfe a hamem
    by_contra hbad
    rw [Bool.not_eq_true] at hbad
    have hX : (a.recurring_template_id.isSome &&
        (a.recurring_template_id == (mkGeneratedTx db.nextId t target).recurring_template_id) &&
        (a.tx_date == (mkGeneratedTx db.nextId t target).tx_date)) = true := by
      simpa [pairOK] using hbad
    simp only [mkGeneratedTx, Bool.and_eq_true, beq_iff_eq] at hX
    have hmt : txMatches a t.id target = true := by
      simp [txMatches, hX.1.2, hX.2]
    rw [hnm] at hmt
    exact absurd hmt (by decide)

theorem foldl_genStep_noDup (target : Dt) :
    ∀ (ts : List RecurringTransactionTemplate) {db : GenDB},
      noDupB db.transactions = true →
      noDupB ((ts.foldl (genStep target) db)).transactions = true := by
  intro ts
  induction ts with
  | nil => intro db h; exact h
  | cons t ts ih => intro db h; exact ih (genStep_noDup target t h)

theorem foldl_genStep_countPair_mono (target : Dt)
    (ts : List RecurringTransactionTemplate) (db : GenDB) (tid : Nat) (d : Dt) :
    countPair db.transactions tid d ≤
      countPair ((ts.foldl (genStep target) db)).transactions tid d := by
  rcases foldl_genStep_extends target ts db with ⟨new, hnew, -⟩
  rw [hnew, countPair_append]
  omega

/-- A template of the due list never fails the service-level `On Date`
check: the repository query already filtered `end_date >= target`. -/
theorem due_serviceEndSkip {templates : List RecurringTransactionTemplate}
    {target : Dt} {t : RecurringTransactionTemplate}
    (h : t ∈ getTemplatesToGenerate templates target) :
    serviceEndSkip t target = false := by
  have hc := (List.mem_filter.mp h).2
  simp only [Bool.and_eq_true, Bool.or_eq_true, beq_iff_eq] at hc
  rcases hc with ⟨-, hend⟩
  rcases hend with (hne | hod) | hao
  · simp [serviceEndSkip, hne]
  · obtain ⟨honD, hmatch⟩ := hod
    cases hed : t.end_date with
    | none => rw [hed] at hmatch; simp at hmatch
    | some e =>
      rw [hed] at hmatch
      have hble : Dt.ble target e = true := hmatch
      simp [serviceEndSkip, hed, Dt.blt, hble]
  · obtain ⟨haoT, -⟩ := hao
    simp [serviceEndSkip, haoT]

/-- After the per-template step for an eligible template, a transaction for
its (template, target) pair exists. -/
theorem genStep_countPair_pos (target : Dt) (db : GenDB)
    (t : RecurringTransactionTemplate)
    (hskip : serviceEndSkip t target = false) :
    0 < countPair (genStep target db t).transactions t.id target := by
  cases hfe : findExisting db.transactions t.id target with
  | some tx =>
    rcases findExisting_eq_some_mem hfe with ⟨hmem, hm⟩
    have : 0 < countPair db.transactions t.id target :=
      (countPair_pos_iff _ _ _).mpr ⟨tx, hmem, hm⟩
    unfold genStep
    rw [hfe]
    exact this
  | none =>
    have hstep : (genStep target db t).transactions =
        db.transactions ++ [mkGeneratedTx db.nextId t target] := by
      unfold genStep
      rw [hfe, hskip]
      simp
    rw [hstep, countPair_append]
    have hmt : txMatches (mkGeneratedTx db.nextId t target) t.id target = true := by
      simp [txMatches, mkGeneratedTx]
    have : countPair [mkGeneratedTx db.nextId t target] t.id target = 1 := by
      simp [countPair, List.filter_cons, hmt]
    omega

/-- After the whole due-template loop, every looped-over template that
passes the service end check has a materialized transaction. -/
theorem foldl_genStep_countPair_pos (target : Dt) :
    ∀ (ts : List RecurringTransactionTemplate) (db : GenDB)
      (t : RecurringTransactionTemplate), t ∈ ts →
      serviceEndSkip t target = false →
      0 < countPair ((ts.foldl (genStep target) db)).transactions t.id target := by
  intro ts
  induction ts with
  | nil => intro db t ht; exact absurd ht (List.not_mem_nil t)
  | cons u ts ih =>
    intro db t ht hskip
    rcases List.mem_cons.mp ht with rfl | hmem
    · calc 0 < countPair (genStep target db t).transactions t.id target :=
            genStep_countPair_pos target db t hskip
        _ ≤ _ := foldl_genStep_countPair_mono target ts (genStep target db t) t.id target
    · exact ih (genStep target db u) t hmem hskip

/-- `generate_transactions_for_date` preserves the per-pair uniqueness
invariant. -/
theorem generateForDate_noDup {templates : List RecurringTransactionTemplate}
    {target : Dt} {db : GenDB} (h : noDupB db.transactions = true) :
    noDupB (generateTransactionsForDate templates target db).transactions = true :=
  foldl_genStep_noDup target (getTemplatesToGenerate templates target) h

theorem runDates_noDup {templates : List RecurringTransactionTemplate}
    (dates : List Dt) {db : GenDB} (h : noDupB db.transactions = true) :
    noDupB (runDates templates dates db).transactions = true := by
  induction dates generalizing db with
  | nil => exact h
  | cons d dates ih => exact ih (generateForDate_noDup h)

theorem runDates_countPair_mono (templates : List RecurringTransactionTemplate)
    (dates : List Dt) (db : GenDB) (tid : Nat) (d : Dt) :
    countPair db.transactions tid d ≤
      countPair (runDates templates dates db).transactions tid d := by
  induction dates generalizing db with
  | nil => exact Nat.le_refl _
  | cons d0 dates ih =>
    calc countPair db.transactions tid d
        ≤ countPair (generateTransactionsForDate templates d0 db).transactions tid d :=
          foldl_genStep_countPair_mono d0 _ db tid d
      _ ≤ _ := ih _

/-! ## Claim theorems for the generation engine -/

/-- C1: for every template and every date, after any sequence of
invocations of `generate_transactions_for_date` (any number of calls, any
target dates) at most one ledger transaction carries that
(recurring_template_id, tx_date) pair; in particular N+1 invocations for
the same date leave exactly one entry per template due on that date. -/
theorem c1_generation_idempotent
    (templates : List RecurringTransactionTemplate) (db : GenDB)
    (hdup : noDupB db.transactions = true) (dates : List Dt) :
    (∀ (tid : Nat) (d : Dt),
      countPair (runDates templates dates db).transactions tid d ≤ 1) ∧
    (∀ (d : Dt) (n : Nat) (t : RecurringTransactionTemplate),
      t ∈ getTemplatesToGenerate templates d →
      countPair (runDates templates (List.replicate (n + 1) d) db).transactions
        t.id d = 1) := by
  constructor
  · intro tid d
    exact noDupB_countPair_le_one (runDates_noDup dates hdup) tid d
  · intro d n t ht
    have hskip := due_serviceEndSkip ht
    have h1 : 0 < countPair
        (generateTransactionsForDate templates d db).transactions t.id d :=
      foldl_genStep_countPair_pos d _ db t ht hskip
    have hrun : runDates templates (List.replicate (n + 1) d) db =
        runDates templates (List.replicate n d)
          (generateTransactionsForDate templates d db) := rfl
    rw [hrun]
    have hpos : 0 < countPair (runDates templates (List.replicate n d)
        (generateTransactionsForDate templates d db)).transactions t.id d :=
      Nat.lt_of_lt_of_le h1 (runDates_countPair_mono templates _ _ t.id d)
    have hnd : noDupB (runDates templates (List.replicate n d)
        (generateTransactionsForDate templates d db)).transactions = true :=
      runDates_noDup (List.replicate n d)
        (@generateForDate_noDup templates d db hdup)
    have hle := noDupB_countPair_le_one hnd t.id d
    omega

/-- Concrete data for the C1 witness: the spec's scenario template
(Expense 500, day 15, started 2025-01-01, no end). -/
def c1Template : RecurringTransactionTemplate :=
  { id := 1, project_id := 1, description := "cleaning", type := "Expense",
    amount := 500, day_of_month := 15, start_date := ⟨2025, 1, 1⟩ }

theorem c1_witness :
    noDupB (GenDB.mk [] 1).transactions = true ∧
    countPair (runDates [c1Template] [⟨2025, 2, 15⟩]
      (GenDB.mk [] 1)).transactions 1 ⟨2025, 2, 15⟩ ≤ 1 ∧
    countPair (runDates [c1Template] (List.replicate 3 ⟨2025, 2, 15⟩)
      (GenDB.mk [] 1)).transactions 1 ⟨2025, 2, 15⟩ = 1 := by
  refine ⟨by decide, ?_, ?_⟩
  · exact (c1_generation_idempotent [c1Template] (GenDB.mk [] 1) (by decide)
      [⟨2025, 2, 15⟩]).1 1 ⟨2025, 2, 15⟩
  · have h := (c1_generation_idempotent [c1Template] (GenDB.mk [] 1) (by decide)
      []).2 ⟨2025, 2, 15⟩ 2 c1Template (by decide)
    simpa using h

/-- C9: `generate_transactions_for_date` only inserts — the prior
transactions list is left intact as a prefix (no record modified or
deleted), and every inserted transaction has `is_generated = true` and
`recurring_template_id` equal to the id of a template due on the target
date. -/
theorem c9_generation_frame
    (templates : List RecurringTransactionTemplate) (target : Dt) (db : GenDB) :
    ∃ new, (generateTransactionsForDate templates target db).transactions =
        db.transactions ++ new ∧
      ∀ tx ∈ new, tx.is_generated = true ∧
        ∃ t ∈ getTemplatesToGenerate templates target,
          tx.recurring_template_id = some t.id := by
  rcases foldl_genStep_extends target (getTemplatesToGenerate templates target) db
    with ⟨new, hnew, hprop⟩
  refine ⟨new, hnew, fun tx htx => ?_⟩
  rcases hprop tx htx with ⟨t, nid, ht, rfl⟩
  exact ⟨rfl, t, ht, rfl⟩

/-- Concrete data for C2: an active monthly template ending after 3
occurrences. -/
def c2Template : RecurringTransactionTemplate :=
  { id := 7, project_id := 1, description := "retainer", type := "Expense",
    amount := 250, day_of_month := 15, start_date := ⟨2025, 1, 1⟩,
    end_type := "After Occurrences", max_occurrences := some 3 }

/-- Concrete data for C2: the three entries already materialized from
template 7 (Jan–Mar 2025). -/
def c2Existing : List Transaction :=
  [ { id := 1, project_id := 1, recurring_template_id := some 7,
      tx_date := ⟨2025, 1, 15⟩, type := "Expense", amount := 250,
      is_generated := true },
    { id := 2, project_id := 1, recurring_template_id := some 7,
      tx_date := ⟨2025, 2, 15⟩, type := "Expense", amount := 250,
      is_generated := true },
    { id := 3, project_id := 1, recurring_template_id := some 7,
      tx_date := ⟨2025, 3, 15⟩, type := "Expense", amount := 250,
      is_generated := true } ]

/-- C2 (code bug): a template with `AfterOccurrences(3)` and three already
materialized entries still gets a 4th entry on the next matching date —
`generate_transactions_for_date` never performs the occurrence-count check
the repository query defers to the service level. -/
theorem c2_after_occurrences_not_enforced :
    ((generateTransactionsForDate [c2Template] ⟨2025, 4, 15⟩
        (GenDB.mk c2Existing 4)).transactions.filter
      (fun tx => tx.recurring_template_id == some 7)).length = 4 ∧
    countPair (generateTransactionsForDate [c2Template] ⟨2025, 4, 15⟩
        (GenDB.mk c2Existing 4)).transactions 7 ⟨2025, 4, 15⟩ = 1 := by
  decide

/-! ## Lemmas for the month generation (day-of-month clamping) -/

theorem countPair_eq_zero_iff (txs : List Transaction) (tid : Nat) (d : Dt) :
    countPair txs tid d = 0 ↔ ∀ tx ∈ txs, txMatches tx tid d = false := by
  simp [countPair, List.length_eq_zero, List.filter_eq_nil_iff]

theorem findExisting_none_of_countPair_zero {txs : List Transaction} {tid : Nat}
    {d : Dt} (h : countPair txs tid d = 0) : findExisting txs tid d = none :=
  (findExisting_eq_none_iff txs tid d).mpr ((countPair_eq_zero_iff txs tid d).mp h)

/-- The fallback step of `generate_transactions_for_month` only ever
appends the freshly generated last-day transaction. -/
theorem monthOverflowStep_extends (y m ld : Nat) (db : GenDB)
    (t : RecurringTransactionTemplate) :
    (monthOverflowStep y m ld db t).transactions = db.transactions ∨
    ((monthOverflowStep y m ld db t).transactions =
        db.transactions ++ [mkGeneratedTx db.nextId t ⟨y, m, ld⟩] ∧
      findExisting db.transactions t.id ⟨y, m, ld⟩ = none) := by
  by_cases hover : ld < t.day_of_month
  · simp only [monthOverflowStep, if_pos hover]
    cases hfe : findExisting db.transactions t.id ⟨y, m, ld⟩ with
    | some tx => simp
    | none =>
      cases hstart : Dt.ble t.start_date ⟨y, m, ld⟩ with
      | false => simp [hstart]
      | true =>
        cases hskip : serviceEndSkip t ⟨y, m, ld⟩ with
        | true => simp [hstart, hskip]
        | false => exact Or.inr ⟨by simp [hstart, hskip], rfl⟩
  · simp [monthOverflowStep, hover]

/-- Steps of the fallback loop never touch pairs at a date other than the
month's last day. -/
theorem overflowFold_countPair_other_date (y m ld : Nat)
    (l : List RecurringTransactionTemplate) (tid : Nat) (d : Dt)
    (hd : d ≠ ⟨y, m, ld⟩) :
    ∀ db : GenDB,
      countPair ((l.foldl (monthOverflowStep y m ld) db)).transactions tid d =
        countPair db.transactions tid d := by
  induction l with
  | nil => intro db; rfl
  | cons u l ih =>
    intro db
    rw [List.foldl_cons, ih]
    rcases monthOverflowStep_extends y m ld db u with heq | ⟨heq, -⟩
    · rw [heq]
    · rw [heq, countPair_append]
      have hz : countPair [mkGeneratedTx db.nextId u ⟨y, m, ld⟩] tid d = 0 := by
        rw [countPair_eq_zero_iff]
        intro tx htx
        rcases List.mem_singleton.mp htx with rfl
        have : (mkGeneratedTx db.nextId u ⟨y, m, ld⟩).tx_date = ⟨y, m, ld⟩ := rfl
        simp [txMatches, mkGeneratedTx]
        intro
        exact fun h => absurd h.symm hd
      omega

/-- Steps of the fallback loop for templates with a different id never touch
the counted template's pairs. -/
theorem overflowFold_countPair_other_id (y m ld : Nat)
    (l : List RecurringTransactionTemplate) (tid : Nat) (d : Dt)
    (hl : ∀ u ∈ l, u.id ≠ tid) :
    ∀ db : GenDB,
      countPair ((l.foldl (monthOverflowStep y m ld) db)).transactions tid d =
        countPair db.transactions tid d := by
  induction l with
  | nil => intro db; rfl
  | cons u l ih =>
    intro db
    rw [List.foldl_cons, ih (fun v hv => hl v (List.mem_cons_of_mem u hv))]
    rcases monthOverflowStep_extends y m ld db u with heq | ⟨heq, -⟩
    · rw [heq]
    · rw [heq, countPair_append]
      have hz : countPair [mkGeneratedTx db.nextId u ⟨y, m, ld⟩] tid d = 0 := by
        rw [countPair_eq_zero_iff]
        intro tx htx
        rcases List.mem_singleton.mp htx with rfl
        simp [txMatches, mkGeneratedTx]
        intro h
        exact absurd h (hl u (List.mem_cons_self u l))
      omega

/-- The fallback step fires for an eligible overflowing template with no
existing last-day entry: afterwards exactly one entry for the pair. -/
theorem monthOverflowStep_fires (y m ld : Nat) (db : GenDB)
    (t : RecurringTransactionTemplate)
    (hover : ld < t.day_of_month)
    (hstart : Dt.ble t.start_date ⟨y, m, ld⟩ = true)
    (hskip : serviceEndSkip t ⟨y, m, ld⟩ = false)
    (hzero : countPair db.transactions t.id ⟨y, m, ld⟩ = 0) :
    countPair (monthOverflowStep y m ld db t).transactions t.id ⟨y, m, ld⟩ = 1 := by
  have hfe := findExisting_none_of_countPair_zero hzero
  have hstep : (monthOverflowStep y m ld db t).transactions =
      db.transactions ++ [mkGeneratedTx db.nextId t ⟨y, m, ld⟩] := by
    simp only [monthOverflowStep, if_pos hover, hfe, hstart, hskip]
    simp
  rw [hstep, countPair_append, hzero]
  simp [countPair, List.filter_cons, txMatches, mkGeneratedTx]

/-- Members of a list whose mapped ids are duplicate-free and share an id
are equal. -/
theorem eq_of_mem_of_nodup_ids {templates : List RecurringTransactionTemplate}
    (hNodup : (templates.map (fun u => u.id)).Nodup)
    {u t : RecurringTransactionTemplate} (hu : u ∈ templates)
    (ht : t ∈ templates) (hid : u.id = t.id) : u = t :=
  List.inj_on_of_nodup_map hNodup hu ht hid

/-- Per-date generation runs for dates whose day differs from
`t.day_of_month` never touch `t`'s pairs (given duplicate-free template
ids). -/
theorem dayFold_countPair_eq (templates : List RecurringTransactionTemplate)
    {t : RecurringTransactionTemplate}
    (hNodup : (templates.map (fun u => u.id)).Nodup) (ht : t ∈ templates)
    (ds : List Dt) (hds : ∀ d' ∈ ds, t.day_of_month ≠ d'.day) (d : Dt) :
    ∀ db : GenDB,
      countPair ((ds.foldl
          (fun st d' => generateTransactionsForDate templates d' st) db)).transactions
        t.id d = countPair db.transactions t.id d := by
  induction ds with
  | nil => intro db; rfl
  | cons d0 ds ih =>
    intro db
    rw [List.foldl_cons, ih (fun v hv => hds v (List.mem_cons_of_mem d0 hv))]
    rcases foldl_genStep_extends d0 (getTemplatesToGenerate templates d0) db
      with ⟨new, hnew, hprop⟩
    have hgen : (generateTransactionsForDate templates d0 db).transactions =
        db.transactions ++ new := hnew
    rw [hgen, countPair_append]
    have hz : countPair new t.id d = 0 := by
      rw [countPair_eq_zero_iff]
      intro tx htx
      rcases hprop tx htx with ⟨u, nid, hu, rfl⟩
      have hud : u.day_of_month = d0.day := by
        have hc := (List.mem_filter.mp hu).2
        simp only [Bool.and_eq_true, beq_iff_eq] at hc
        exact hc.1.1.2
      have huid : u.id ≠ t.id := by
        intro hid
        have : u = t := eq_of_mem_of_nodup_ids hNodup (List.mem_filter.mp hu).1 ht hid
        subst this
        exact hds d0 (List.mem_cons_self d0 ds) hud
      simp [txMatches, mkGeneratedTx, huid]
    omega

/-- C5: an active template whose `day_of_month` exceeds the number of days
of the target month fires exactly once during month generation, on the
month's last calendar day (30 for a 30-day month; Feb 29 in a leap year;
Feb 28 otherwise, by `lastDayOfMonth`), and touches no other date. -/
theorem c5_day_of_month_clamping
    (templates : List RecurringTransactionTemplate) (db : GenDB)
    (t : RecurringTransactionTemplate) (y m : Nat)
    (hm1 : 1 ≤ m) (hm2 : m ≤ 12)
    (hNodup : (templates.map (fun u => u.id)).Nodup)
    (ht : t ∈ templates) (hact : t.is_active = true)
    (hover : lastDayOfMonth y m < t.day_of_month)
    (hstart : Dt.ble t.start_date ⟨y, m, lastDayOfMonth y m⟩ = true)
    (hend : serviceEndSkip t ⟨y, m, lastDayOfMonth y m⟩ = false)
    (hnone : countPair db.transactions t.id ⟨y, m, lastDayOfMonth y m⟩ = 0) :
    countPair (generateTransactionsForMonth templates y m db).transactions t.id
      ⟨y, m, lastDayOfMonth y m⟩ = 1 ∧
    ∀ d : Dt, d ≠ ⟨y, m, lastDayOfMonth y m⟩ →
      countPair (generateTransactionsForMonth templates y m db).transactions t.id d =
        countPair db.transactions t.id d := by
  have hmonth : generateTransactionsForMonth templates y m db =
      (templates.filter (fun u => u.is_active)).foldl
        (monthOverflowStep y m (lastDayOfMonth y m))
        ((List.range (lastDayOfMonth y m)).foldl
          (fun st i => generateTransactionsForDate templates ⟨y, m, i + 1⟩ st) db) := rfl
  have hdayfold : (List.range (lastDayOfMonth y m)).foldl
      (fun st i => generateTransactionsForDate templates ⟨y, m, i + 1⟩ st) db =
      (((List.range (lastDayOfMonth y m)).map
          (fun i => (⟨y, m, i + 1⟩ : Dt))).foldl
        (fun st d' => generateTransactionsForDate templates d' st) db) := by
    rw [List.foldl_map]
  have hds : ∀ d' ∈ (List.range (lastDayOfMonth y m)).map
      (fun i => (⟨y, m, i + 1⟩ : Dt)), t.day_of_month ≠ d'.day := by
    intro d' hd'
    rcases List.mem_map.mp hd' with ⟨i, hi, rfl⟩
    have hilt : i < lastDayOfMonth y m := List.mem_range.mp hi
    intro hbad
    have hdayeq : (⟨y, m, i + 1⟩ : Dt).day = i + 1 := rfl
    rw [hdayeq] at hbad
    omega
  have hday : ∀ d : Dt,
      countPair ((List.range (lastDayOfMonth y m)).foldl
        (fun st i => generateTransactionsForDate templates ⟨y, m, i + 1⟩ st)
          db).transactions t.id d = countPair db.transactions t.id d := by
    intro d
    rw [hdayfold]
    exact dayFold_countPair_eq templates hNodup ht _ hds d db
  have htf : t ∈ templates.filter (fun u => u.is_active) :=
    List.mem_filter.mpr ⟨ht, hact⟩
  obtain ⟨l₁, l₂, hsplit⟩ := List.append_of_mem htf
  have hsubnd : ((templates.filter (fun u => u.is_active)).map
      (fun u => u.id)).Nodup :=
    hNodup.sublist (List.Sublist.map (fun u => u.id) (List.filter_sublist templates))
  rw [hsplit] at hsubnd
  rw [List.map_append, List.map_cons] at hsubnd
  have hnd := List.nodup_append.mp hsubnd
  have h1 : ∀ u ∈ l₁, u.id ≠ t.id := by
    intro u hu hbad
    exact hnd.2.2 (List.mem_map_of_mem _ hu)
      (by rw [hbad]; exact List.mem_cons_self _ _)
  have h2 : ∀ u ∈ l₂, u.id ≠ t.id := by
    intro u hu hbad
    have hcons := hnd.2.1
    rw [List.nodup_cons] at hcons
    exact hcons.1 (by rw [← hbad]; exact List.mem_map_of_mem _ hu)
  set db1 := (List.range (lastDayOfMonth y m)).foldl
    (fun st i => generateTransactionsForDate templates ⟨y, m, i + 1⟩ st) db with hdb1
  have hfold : generateTransactionsForMonth templates y m db =
      l₂.foldl (monthOverflowStep y m (lastDayOfMonth y m))
        (monthOverflowStep y m (lastDayOfMonth y m)
          (l₁.foldl (monthOverflowStep y m (lastDayOfMonth y m)) db1) t) := by
    rw [hmonth, hsplit, List.foldl_append, List.foldl_cons]
  constructor
  · rw [hfold]
    rw [overflowFold_countPair_other_id y m (lastDayOfMonth y m) l₂ t.id _ h2]
    apply monthOverflowStep_fires y m (lastDayOfMonth y m) _ t hover hstart hend
    rw [overflowFold_countPair_other_id y m (lastDayOfMonth y m) l₁ t.id _ h1]
    rw [hday]
    exact hnone
  · intro d hd
    rw [hfold, ← List.foldl_cons, ← List.foldl_append, ← hsplit]
    rw [overflowFold_countPair_other_date y m (lastDayOfMonth y m) _ t.id d hd]
    exact hday d

/-- Concrete data for the C5 witness: an active day-31 monthly template. -/
def c5Template : RecurringTransactionTemplate :=
  { id := 3, project_id := 1, description := "rent", type := "Expense",
    amount := 100, day_of_month := 31, start_date := ⟨2024, 1, 1⟩ }

theorem c5_witness :
    lastDayOfMonth 2025 4 = 30 ∧ lastDayOfMonth 2024 2 = 29 ∧
    lastDayOfMonth 2025 2 = 28 ∧
    countPair (generateTransactionsForMonth [c5Template] 2025 4
      (GenDB.mk [] 1)).transactions 3 ⟨2025, 4, 30⟩ = 1 ∧
    countPair (generateTransactionsForMonth [c5Template] 2024 2
      (GenDB.mk [] 1)).transactions 3 ⟨2024, 2, 29⟩ = 1 ∧
    countPair (generateTransactionsForMonth [c5Template] 2025 2
      (GenDB.mk [] 1)).transactions 3 ⟨2025, 2, 28⟩ = 1 ∧
    countPair (generateTransactionsForMonth [c5Template] 2025 4
      (GenDB.mk [] 1)).transactions 3 ⟨2025, 5, 1⟩ = 0 := by
  refine ⟨by decide, by decide, by decide, ?_, ?_, ?_, ?_⟩
  · exact (c5_day_of_month_clamping [c5Template] (GenDB.mk [] 1) c5Template 2025 4
      (by decide) (by decide) (by decide) (by decide) (by decide) (by decide)
      (by decide) (by decide) (by decide)).1
  · exact (c5_day_of_month_clamping [c5Template] (GenDB.mk [] 1) c5Template 2024 2
      (by decide) (by decide) (by decide) (by decide) (by decide) (by decide)
      (by decide) (by decide) (by decide)).1
  · exact (c5_day_of_month_clamping [c5Template] (GenDB.mk [] 1) c5Template 2025 2
      (by decide) (by decide) (by decide) (by decide) (by decide) (by decide)
      (by decide) (by decide) (by decide)).1
  · have h := (c5_day_of_month_clamping [c5Template] (GenDB.mk [] 1) c5Template 2025 4
      (by decide) (by decide) (by decide) (by decide) (by decide) (by decide)
      (by decide) (by decide) (by decide)).2 ⟨2025, 5, 1⟩ (by decide)
    simpa using h

/-! ## Failure semantics

`generate_transactions_for_date` wraps each template in `try ... except`
but its handler re-raises, so one failed materialization propagates out of
the loop and the final `commit` never runs.  The `day_of_month > last_day`
fallback loop of `generate_transactions_for_month` instead continues with
the next template.  `fails` is the oracle saying for which template the
`Transaction(...)` construction (and its column-fallback retry) raises. -/

/-- One iteration of the `generate_transactions_for_date` loop when
constructing the transaction for template `t` may raise: the service
handler re-raises, aborting the whole call. -/
def genStepF (fails : Nat → Bool) (target : Dt) (db : GenDB)
    (t : RecurringTransactionTemplate) : Except Unit GenDB :=
  match findExisting db.transactions t.id target with
  | some _ => Except.ok db
  | none =>
    if serviceEndSkip t target then Except.ok db
    else if fails t.id then Except.error ()
    else Except.ok { transactions := db.transactions ++ [mkGeneratedTx db.nextId t target]
                     nextId := db.nextId + 1 }

/-- The template loop of `generate_transactions_for_date` with failures:
the first raising template aborts the remaining iterations. -/
def genLoopF (fails : Nat → Bool) (target : Dt) :
    List RecurringTransactionTemplate → GenDB → Except Unit GenDB
  | [], db => Except.ok db
  | t :: ts, db =>
    match genStepF fails target db t with
    | Except.ok db' => genLoopF fails target ts db'
    | Except.error e => Except.error e

/-- `generate_transactions_for_date` with a failure oracle. -/
def generateTransactionsForDateF (templates : List RecurringTransactionTemplate)
    (fails : Nat → Bool) (target : Dt) (db : GenDB) : Except Unit GenDB :=
  genLoopF fails target (getTemplatesToGenerate templates target) db

/-- The persistent state after a call of `generate_transactions_for_date`
with failures: on an exception the session is never committed, so the
stored table stays as it was. -/
def committedAfterGenerateForDateF (templates : List RecurringTransactionTemplate)
    (fails : Nat → Bool) (target : Dt) (db : GenDB) : GenDB :=
  match generateTransactionsForDateF templates fails target db with
  | Except.ok db' => db'
  | Except.error _ => db

/-- One iteration of the month fallback loop with failures: the handler
there ends in `continue`, so a raising template is skipped and the loop
proceeds. -/
def monthOverflowStepF (fails : Nat → Bool) (y m lastDay : Nat) (db : GenDB)
    (t : RecurringTransactionTemplate) : GenDB :=
  if lastDay < t.day_of_month then
    match findExisting db.transactions t.id ⟨y, m, lastDay⟩ with
    | some _ => db
    | none =>
      if Dt.ble t.start_date ⟨y, m, lastDay⟩ then
        if serviceEndSkip t ⟨y, m, lastDay⟩ then db
        else if fails t.id then db
        else { transactions :=
                 db.transactions ++ [mkGeneratedTx db.nextId t ⟨y, m, lastDay⟩]
               nextId := db.nextId + 1 }
      else db
  else db

/-- The `day_of_month > last_day` fallback segment of
`generate_transactions_for_month`, with a failure oracle. -/
def monthOverflowFoldF (fails : Nat → Bool) (y m : Nat)
    (templates : List RecurringTransactionTemplate) (db : GenDB) : GenDB :=
  (templates.filter (fun t => t.is_active)).foldl
    (monthOverflowStepF fails y m (lastDayOfMonth y m)) db

/-- The month fallback step with failures also only ever appends. -/
theorem monthOverflowStepF_extends (fails : Nat → Bool) (y m ld : Nat)
    (db : GenDB) (t : RecurringTransactionTemplate) :
    (monthOverflowStepF fails y m ld db t).transactions = db.transactions ∨
    (monthOverflowStepF fails y m ld db t).transactions =
      db.transactions ++ [mkGeneratedTx db.nextId t ⟨y, m, ld⟩] := by
  by_cases hover : ld < t.day_of_month
  · simp only [monthOverflowStepF, if_pos hover]
    cases hfe : findExisting db.transactions t.id ⟨y, m, ld⟩ with
    | some tx => simp
    | none =>
      cases hstart : Dt.ble t.start_date ⟨y, m, ld⟩ with
      | false => simp [hstart]
      | true =>
        cases hskip : serviceEndSkip t ⟨y, m, ld⟩ with
        | true => simp [hstart, hskip]
        | false =>
          cases hf : fails t.id with
          | true => simp [hstart, hskip, hf]
          | false => simp [hstart, hskip, hf]
  · simp [monthOverflowStepF, hover]

theorem monthOverflowFoldF_mem_preserved (fails : Nat → Bool) (y m ld : Nat) :
    ∀ (l : List RecurringTransactionTemplate) (db : GenDB) (tx : Transaction),
      tx ∈ db.transactions →
      tx ∈ ((l.foldl (monthOverflowStepF fails y m ld) db)).transactions := by
  intro l
  induction l with
  | nil => intro db tx h; exact h
  | cons u l ih =>
    intro db tx h
    rw [List.foldl_cons]
    apply ih
    rcases monthOverflowStepF_extends fails y m ld db u with heq | heq <;>
      rw [heq]
    · exact h
    · exact List.mem_append_left _ h

/-- After the fallback loop, every eligible active template whose
construction does not raise has a last-day entry — even when other
templates in the same run raise. -/
theorem monthOverflowFoldF_fires (fails : Nat → Bool) (y m ld : Nat)
    (t : RecurringTransactionTemplate)
    (hover : ld < t.day_of_month)
    (hstart : Dt.ble t.start_date ⟨y, m, ld⟩ = true)
    (hskip : serviceEndSkip t ⟨y, m, ld⟩ = false)
    (hf : fails t.id = false) :
    ∀ (l : List RecurringTransactionTemplate) (db : GenDB), t ∈ l →
      ∃ tx ∈ ((l.foldl (monthOverflowStepF fails y m ld) db)).transactions,
        txMatches tx t.id ⟨y, m, ld⟩ = true := by
  intro l
  induction l with
  | nil => intro db h; exact absurd h (List.not_mem_nil t)
  | cons u l ih =>
    intro db hmem
    rw [List.foldl_cons]
    rcases List.mem_cons.mp hmem with rfl | hmem'
    · cases hfe : findExisting db.transactions t.id ⟨y, m, ld⟩ with
      | some tx0 =>
        rcases findExisting_eq_some_mem hfe with ⟨htx0, hm0⟩
        refine ⟨tx0, ?_, hm0⟩
        apply monthOverflowFoldF_mem_preserved fails y m ld l _ tx0
        rcases monthOverflowStepF_extends fails y m ld db t with heq | heq <;>
          rw [heq]
        · exact htx0
        · exact List.mem_append_left _ htx0
      | none =>
        have hstep : (monthOverflowStepF fails y m ld db t).transactions =
            db.transactions ++ [mkGeneratedTx db.nextId t ⟨y, m, ld⟩] := by
          simp only [monthOverflowStepF, if_pos hover, hfe, hstart, hskip, hf]
          simp
        refine ⟨mkGeneratedTx db.nextId t ⟨y, m, ld⟩, ?_, by simp [txMatches, mkGeneratedTx]⟩
        apply monthOverflowFoldF_mem_preserved fails y m ld l _ _
        rw [hstep]
        exact List.mem_append_right _ (List.mem_singleton.mpr rfl)
    · exact ih _ hmem'

/-- Concrete data for C7: the template whose materialization raises. -/
def c7TemplateA : RecurringTransactionTemplate :=
  { id := 1, project_id := 1, description := "electricity", type := "Expense",
    amount := 80, day_of_month := 15, start_date := ⟨2025, 1, 1⟩ }

/-- Concrete data for C7: the healthy sibling template in the same run. -/
def c7TemplateB : RecurringTransactionTemplate :=
  { id := 2, project_id := 1, description := "water", type := "Expense",
    amount := 60, day_of_month := 15, start_date := ⟨2025, 1, 1⟩ }

/-- C7 counterexample: in `generate_transactions_for_date`, a failure while
materializing template 1 aborts the run — the call raises and the sibling
template 2, due on the same date, gets no entry (nothing is committed).
This falsifies the claim that each template's generation attempt is
independent and partial success is permitted. -/
theorem c7_counterexample :
    generateTransactionsForDateF [c7TemplateA, c7TemplateB]
      (fun tid => tid == 1) ⟨2025, 5, 15⟩ (GenDB.mk [] 1) = Except.error () ∧
    countPair (committedAfterGenerateForDateF [c7TemplateA, c7TemplateB]
      (fun tid => tid == 1) ⟨2025, 5, 15⟩ (GenDB.mk [] 1)).transactions
      2 ⟨2025, 5, 15⟩ = 0 := by
  exact ⟨rfl, by decide⟩

/-- C7 (amended): a materialization failure in
`generate_transactions_for_date` aborts the whole run and nothing is
committed (siblings in that run are not materialized); only the
`day_of_month > last_day` fallback loop of
`generate_transactions_for_month` continues past a failing template, where
every eligible non-failing template still gets its last-day entry. -/
theorem c7_failure_semantics_amended :
    (∀ (templates : List RecurringTransactionTemplate) (fails : Nat → Bool)
        (target : Dt) (db : GenDB),
      generateTransactionsForDateF templates fails target db = Except.error () →
      committedAfterGenerateForDateF templates fails target db = db) ∧
    (∀ (templates : List RecurringTransactionTemplate) (fails : Nat → Bool)
        (y m : Nat) (db : GenDB) (t : RecurringTransactionTemplate),
      t ∈ templates → t.is_active = true →
      lastDayOfMonth y m < t.day_of_month →
      Dt.ble t.start_date ⟨y, m, lastDayOfMonth y m⟩ = true →
      serviceEndSkip t ⟨y, m, lastDayOfMonth y m⟩ = false →
      fails t.id = false →
      ∃ tx ∈ (monthOverflowFoldF fails y m templates db).transactions,
        txMatches tx t.id ⟨y, m, lastDayOfMonth y m⟩ = true) := by
  constructor
  · intro templates fails target db h
    unfold committedAfterGenerateForDateF
    rw [h]
  · intro templates fails y m db t ht hact hover hstart hskip hf
    exact monthOverflowFoldF_fires fails y m (lastDayOfMonth y m) t hover hstart
      hskip hf (templates.filter (fun u => u.is_active)) db
      (List.mem_filter.mpr ⟨ht, hact⟩)

/-- Concrete data for the C7 witness: a non-failing day-31 template for the
month fallback loop. -/
def c7Template31 : RecurringTransactionTemplate :=
  { id := 2, project_id := 1, description := "rent", type := "Expense",
    amount := 900, day_of_month := 31, start_date := ⟨2024, 1, 1⟩ }

theorem c7_witness :
    committedAfterGenerateForDateF [c7TemplateA, c7TemplateB]
      (fun tid => tid == 1) ⟨2025, 5, 15⟩ (GenDB.mk [] 1) = GenDB.mk [] 1 ∧
    ∃ tx ∈ (monthOverflowFoldF (fun tid => tid == 1) 2025 4 [c7Template31]
        (GenDB.mk [] 1)).transactions,
      txMatches tx 2 ⟨2025, 4, 30⟩ = true := by
  constructor
  · exact c7_failure_semantics_amended.1 [c7TemplateA, c7TemplateB]
      (fun tid => tid == 1) ⟨2025, 5, 15⟩ (GenDB.mk [] 1) rfl
  · exact c7_failure_semantics_amended.2 [c7Template31] (fun tid => tid == 1)
      2025 4 (GenDB.mk [] 1) c7Template31 (by decide) (by decide) (by decide)
      (by decide) (by decide) (by decide)

/-! ## Projection engine (`backend/services/project_service.py`) -/

/-- A project, with the fields read by the projection and rollover
services.  The live model revision (`backend/models/project.py`) is not
among the sources at hand; the fields are taken from the older
`backend/app/models/project.py` revision plus those the services access.
`is_active` is Modelled from the spec: the live-project activity flag read
by the rollover check. -/
structure Project where
  id : Nat
  name : String := ""
  start_date : Option Dt := none
  end_date : Option Dt := none
  budget_monthly : ℚ := 0
  budget_annual : ℚ := 0
  is_active : Bool := true
deriving DecidableEq, Repr

/-- Python `today - relativedelta(years=1)`: same month and day one year
earlier, the day clamped to the target month's length (Feb 29 → Feb 28). -/
def subRelYears1 (d : Dt) : Dt :=
  if d.day ≤ daysInMonth (d.year - 1) d.month then ⟨d.year - 1, d.month, d.day⟩
  else ⟨d.year - 1, d.month, daysInMonth (d.year - 1) d.month⟩

/-- `calculate_start_date`: `max(project_start_date, one_year_ago)`, or one
year ago when the project has no start date. -/
def calculateStartDate (projectStart : Option Dt) (today : Dt) : Dt :=
  match projectStart with
  | some sd => Dt.pyMax sd (subRelYears1 today)
  | none => subRelYears1 today

/-- Sum of stored amounts for the project, type and date range, excluding
fund-sourced transactions — the `actual_income_query` /
`actual_expense_query` of `get_project_financial_data`. -/
def actualSum (txs : List Transaction) (pid : Nat) (ttype : String)
    (startD endD : Dt) : ℚ :=
  ((txs.filter fun tx =>
      tx.project_id == pid && tx.type == ttype &&
      Dt.ble startD tx.tx_date && Dt.ble tx.tx_date endD &&
      tx.from_fund == false).map (fun tx => tx.amount)).sum

/-- The occurrence date of a day-of-month in a given month, as computed by
`calculate_recurring_transactions_amount`: `date(y, m, dom)` when that is a
valid date, otherwise the last day of the month (the `except ValueError`
branch). -/
def occurrenceDate (y m dom : Nat) : Dt :=
  if 1 ≤ dom ∧ dom ≤ daysInMonth y m then ⟨y, m, dom⟩
  else (⟨y, m, 1⟩ : Dt).nextMonthFirst.prevDay

/-- The per-occurrence amount of `calculate_recurring_transactions_amount`:
the materialized transaction's (possibly edited) amount when one exists for
(project, template, occurrence date), the template default otherwise. -/
def occAmount (txs : List Transaction) (pid : Nat)
    (t : RecurringTransactionTemplate) (occ : Dt) : ℚ :=
  let cnt := (txs.filter fun tx =>
      tx.project_id == pid && tx.recurring_template_id == some t.id &&
      tx.tx_date == occ).length
  if 0 < cnt then
    match txs.find? (fun tx => tx.project_id == pid &&
        tx.recurring_template_id == some t.id && tx.tx_date == occ) with
    | some tx => tx.amount
    | none => t.amount
  else t.amount

/-- The month `while` loop of `calculate_recurring_transactions_amount`.
Python's `month_count` increments after each processed month and the loop
breaks once it exceeds 120; `remaining` counts the same bound downwards
(the initial call passes 121, so exactly the months Python processes are
processed).  The `remaining = 0` base case is never reached from the
initial call. -/
def recurringMonthLoop (txs : List Transaction) (pid : Nat)
    (t : RecurringTransactionTemplate) (tstart eend endMonth : Dt) :
    Dt → Nat → ℚ
  | _, 0 => 0
  | cur, rem + 1 =>
    if Dt.ble cur endMonth then
      let occ := occurrenceDate cur.year cur.month t.day_of_month
      let contrib :=
        if Dt.ble tstart occ && Dt.ble occ eend then occAmount txs pid t occ
        else 0
      if rem = 0 then contrib
      else contrib +
        recurringMonthLoop txs pid t tstart eend endMonth (Dt.nextMonthFirst cur) rem
    else 0

/-- The per-template body of `calculate_recurring_transactions_amount`:
skip non-monthly templates, clip the window to the template's own start and
`On Date` end, and walk the months of the clipped window. -/
def recurringTemplateAmount (txs : List Transaction) (pid : Nat)
    (start_d end_d : Dt) (t : RecurringTransactionTemplate) : ℚ :=
  if (t.frequency == "Monthly") = false then 0
  else
    let templateStart := Dt.pyMax t.start_date start_d
    let effectiveEnd :=
      if t.end_type == "On Date" then
        match t.end_date with
        | some e => Dt.pyMin e end_d
        | none => end_d
      else end_d
    if Dt.blt effectiveEnd templateStart then 0
    else recurringMonthLoop txs pid t templateStart effectiveEnd
      ⟨effectiveEnd.year, effectiveEnd.month, 1⟩
      ⟨templateStart.year, templateStart.month, 1⟩ 121

/-- `calculate_recurring_transactions_amount`: total over the project's
active templates of the requested direction. -/
def calculateRecurringTransactionsAmount (txs : List Transaction)
    (templates : List RecurringTransactionTemplate) (pid : Nat)
    (start_d end_d : Dt) (ttype : String) : ℚ :=
  ((templates.filter fun t =>
      t.project_id == pid && t.type == ttype && t.is_active).map
    (recurringTemplateAmount txs pid start_d end_d)).sum

theorem ble_le_linear {a b : Dt} (hm : a.month ≤ 12) (h : Dt.ble a b = true) :
    12 * a.year + a.month ≤ 12 * b.year + b.month := by
  unfold Dt.ble at h
  split_ifs at h with h1 h2
  · have : a.year < b.year := by simpa using h
    omega
  · have : a.month < b.month := by simpa using h
    have : a.year = b.year := by omega
    omega
  · have hy : a.year = b.year := by omega
    have hmm : a.month = b.month := by omega
    omega

theorem nextMonthFirst_linear (cur : Dt) :
    12 * (Dt.nextMonthFirst cur).year + (Dt.nextMonthFirst cur).month =
      12 * cur.year + cur.month + 1 := by
  unfold Dt.nextMonthFirst
  by_cases h : cur.month == 12
  · have h12 : cur.month = 12 := by simpa using h
    simp [h, h12]
    omega
  · simp [h]
    omega

/-- The month-count `while` loop of the monthly-budget branch of
`get_project_financial_data` (inclusive count from `start_month` through
`end_month`).  The `cur.month ≤ 12` conjunct is vacuous for calendar dates
— Python's `date` guarantees it — and only makes the recursion total on
the wider `Dt` carrier. -/
def monthCountLoop (cur endM : Dt) : Nat :=
  if h : cur.month ≤ 12 ∧ Dt.ble cur endM = true then
    1 + monthCountLoop (Dt.nextMonthFirst cur) endM
  else 0
termination_by 12 * endM.year + endM.month + 1 - (12 * cur.year + cur.month)
decreasing_by
  have h1 := ble_le_linear h.1 h.2
  have h2 := nextMonthFirst_linear cur
  omega

/-- The monthly-budget / annual-budget income of
`get_project_financial_data`: a monthly budget (when positive) counts whole
months from the first of the project's start month (or of the computed
window start when the project has no start date) through the first of the
current month; otherwise a positive annual budget is prorated by the
inclusive day count of the window over 365. -/
def budgetIncome (p : Project) (calcStart today : Dt) : ℚ :=
  if 0 < p.budget_monthly then
    let startMonth : Dt :=
      match p.start_date with
      | some sd => ⟨sd.year, sd.month, 1⟩
      | none => ⟨calcStart.year, calcStart.month, 1⟩
    p.budget_monthly * (monthCountLoop startMonth ⟨today.year, today.month, 1⟩ : ℚ)
  else if 0 < p.budget_annual then
    p.budget_annual / 365 * (((today.toRD : ℤ) - (calcStart.toRD : ℤ) + 1 : ℤ) : ℚ)
  else 0

/-- Python `round(x, 1)`: round half to even at one decimal. -/
def roundHalfEvenZ (x : ℚ) : ℤ :=
  if x - ⌊x⌋ < 1 / 2 then ⌊x⌋
  else if 1 / 2 < x - ⌊x⌋ then ⌊x⌋ + 1
  else if ⌊x⌋ % 2 = 0 then ⌊x⌋ else ⌊x⌋ + 1

def pyRound1 (q : ℚ) : ℚ := (roundHalfEvenZ (q * 10) : ℚ) / 10

/-- The dictionary returned by `get_project_financial_data`. -/
structure FinancialData where
  total_value : ℚ
  income_month_to_date : ℚ
  expense_month_to_date : ℚ
  profit_percent : ℚ
  status_color : String
deriving DecidableEq, Repr

/-- The (total income, total expense) pair of `get_project_financial_data`
for a found project: actual sums plus recurring projection plus (income
only) budget income. -/
def projectTotals (txs : List Transaction)
    (templates : List RecurringTransactionTemplate) (p : Project)
    (pid : Nat) (today : Dt) : ℚ × ℚ :=
  let calcStart := calculateStartDate p.start_date today
  let actualIncome := actualSum txs pid "Income" calcStart today
  let actualExpense := actualSum txs pid "Expense" calcStart today
  let recurringIncome :=
    calculateRecurringTransactionsAmount txs templates pid calcStart today "Income"
  let recurringExpense :=
    calculateRecurringTransactionsAmount txs templates pid calcStart today "Expense"
  (actualIncome + recurringIncome + budgetIncome p calcStart today,
   actualExpense + recurringExpense)

/-- `ProjectService.get_project_financial_data`: zeroed fields with a
yellow status when the project does not exist, otherwise totals, profit,
percentage (0 when total income is not positive) and status color. -/
def getProjectFinancialData (projects : List Project) (txs : List Transaction)
    (templates : List RecurringTransactionTemplate) (pid : Nat)
    (today : Dt) : FinancialData :=
  match projects.find? (fun p => p.id == pid) with
  | none => ⟨0, 0, 0, 0, "yellow"⟩
  | some p =>
    let totals := projectTotals txs templates p pid today
    let profit := totals.1 - totals.2
    let profitPercent := if 0 < totals.1 then profit / totals.1 * 100 else 0
    let statusColor :=
      if 10 ≤ profitPercent then "green"
      else if profitPercent ≤ -10 then "red"
      else "yellow"
    ⟨profit, totals.1, totals.2, pyRound1 profitPercent, statusColor⟩

/-- C10: for a project id with no stored project record, the financial
computation returns the fully zeroed dictionary with a yellow status
instead of raising. -/
theorem c10_missing_project_zeroed (projects : List Project)
    (txs : List Transaction) (templates : List RecurringTransactionTemplate)
    (pid : Nat) (today : Dt)
    (hfind : projects.find? (fun p => p.id == pid) = none) :
    getProjectFinancialData projects txs templates pid today =
      ⟨0, 0, 0, 0, "yellow"⟩ := by
  unfold getProjectFinancialData
  rw [hfind]

theorem c10_witness :
    getProjectFinancialData [] [] [] 5 ⟨2025, 1, 1⟩ = ⟨0, 0, 0, 0, "yellow"⟩ :=
  c10_missing_project_zeroed [] [] [] 5 ⟨2025, 1, 1⟩ rfl

/-- Concrete data for C4: a project with no budgets and one plain expense
transaction in the reporting window. -/
def c4Project : Project := { id := 1, start_date := some ⟨2025, 1, 1⟩ }

/-- Concrete data for C4: the lone expense of 200. -/
def c4Tx : Transaction :=
  { id := 1, project_id := 1, tx_date := ⟨2025, 1, 10⟩, type := "Expense",
    amount := 200 }

/-- C4 counterexample: with total income 0 and total expense 200 the code
returns `profit_percent = 0`, not the claimed −100 (the guard
`if total_income > 0` routes a zero income to 0). -/
theorem c4_counterexample :
    (projectTotals [c4Tx] [] c4Project 1 ⟨2025, 1, 20⟩).1 = 0 ∧
    (projectTotals [c4Tx] [] c4Project 1 ⟨2025, 1, 20⟩).2 = 200 ∧
    (getProjectFinancialData [c4Project] [c4Tx] [] 1 ⟨2025, 1, 20⟩).profit_percent
      = 0 ∧
    ¬((getProjectFinancialData [c4Project] [c4Tx] [] 1
        ⟨2025, 1, 20⟩).profit_percent = -100) := by
  norm_num +decide [projectTotals, getProjectFinancialData, actualSum,
    calculateRecurringTransactionsAmount, budgetIncome, calculateStartDate,
    subRelYears1, Dt.pyMax, Dt.ble, daysInMonth, isLeap, c4Project, c4Tx,
    List.filter_cons, List.find?, List.sum, pyRound1, roundHalfEvenZ]

/-- C4 (amended): when the computed total income is 0 and the total expense
is positive, `get_project_financial_data` returns `profit_percent = 0` (and
a yellow status) — no division error, but 0, not the claimed −100. -/
theorem c4_zero_income_profit_percent_zero
    (projects : List Project) (txs : List Transaction)
    (templates : List RecurringTransactionTemplate) (pid : Nat) (today : Dt)
    (p : Project) (hfind : projects.find? (fun q => q.id == pid) = some p)
    (hzero : (projectTotals txs templates p pid today).1 = 0)
    (hexp : 0 < (projectTotals txs templates p pid today).2) :
    (getProjectFinancialData projects txs templates pid today).profit_percent = 0 ∧
    (getProjectFinancialData projects txs templates pid today).status_color =
      "yellow" := by
  constructor <;>
  · unfold getProjectFinancialData
    rw [hfind]
    simp only [hzero]
    norm_num [pyRound1, roundHalfEvenZ]

theorem c4_witness :
    (getProjectFinancialData [c4Project] [c4Tx] [] 1
      ⟨2025, 1, 20⟩).profit_percent = 0 ∧
    (getProjectFinancialData [c4Project] [c4Tx] [] 1
      ⟨2025, 1, 20⟩).status_color = "yellow" := by
  have hzero : (projectTotals [c4Tx] [] c4Project 1 ⟨2025, 1, 20⟩).1 = 0 := by
    norm_num +decide [projectTotals, actualSum,
      calculateRecurringTransactionsAmount, budgetIncome, calculateStartDate,
      subRelYears1, Dt.pyMax, Dt.ble, daysInMonth, isLeap, c4Project, c4Tx,
      List.filter_cons, List.sum]
  have hexp : 0 < (projectTotals [c4Tx] [] c4Project 1 ⟨2025, 1, 20⟩).2 := by
    norm_num +decide [projectTotals, actualSum,
      calculateRecurringTransactionsAmount, budgetIncome, calculateStartDate,
      subRelYears1, Dt.pyMax, Dt.ble, daysInMonth, isLeap, c4Project, c4Tx,
      List.filter_cons, List.sum]
  exact c4_zero_income_profit_percent_zero [c4Project] [c4Tx] [] 1 ⟨2025, 1, 20⟩
    c4Project (by decide) hzero hexp

/-- Concrete data for C3: project, monthly income template (default 100)
and its materialized January occurrence manually overridden to 150. -/
def c3Project : Project := { id := 1, start_date := some ⟨2025, 1, 1⟩ }

def c3Template : RecurringTransactionTemplate :=
  { id := 1, project_id := 1, description := "dues", type := "Income",
    amount := 100, day_of_month := 10, start_date := ⟨2025, 1, 1⟩ }

def c3Tx : Transaction :=
  { id := 1, project_id := 1, recurring_template_id := some 1,
    tx_date := ⟨2025, 1, 10⟩, type := "Income", amount := 150,
    is_generated := true }

set_option maxRecDepth 100000 in
set_option maxHeartbeats 2000000 in
/-- C3 (code bug): the materialized, overridden occurrence (amount 150) is
summed once by the actual-transactions query and once more by the
recurring projection (which, for an existing occurrence, adds the
transaction amount instead of skipping it), so the totals count the
occurrence twice (300), not once (150) as the claim — and the code's own
no-double-counting comment — require.  The template default (100) is
indeed not used. -/
theorem c3_double_count_eval :
    actualSum [c3Tx] 1 "Income"
      (calculateStartDate (some ⟨2025, 1, 1⟩) ⟨2025, 1, 20⟩) ⟨2025, 1, 20⟩
      = 150 ∧
    calculateRecurringTransactionsAmount [c3Tx] [c3Template] 1
      (calculateStartDate (some ⟨2025, 1, 1⟩) ⟨2025, 1, 20⟩) ⟨2025, 1, 20⟩
      "Income" = 150 ∧
    (getProjectFinancialData [c3Project] [c3Tx] [c3Template] 1
      ⟨2025, 1, 20⟩).income_month_to_date = 300 ∧
    ¬((getProjectFinancialData [c3Project] [c3Tx] [c3Template] 1
      ⟨2025, 1, 20⟩).income_month_to_date = 150) := by
  have hcs : calculateStartDate (some ⟨2025, 1, 1⟩) ⟨2025, 1, 20⟩ =
      ⟨2025, 1, 1⟩ := by decide
  have ha : actualSum [c3Tx] 1 "Income" ⟨2025, 1, 1⟩ ⟨2025, 1, 20⟩ = 150 := by
    norm_num +decide [actualSum, c3Tx, List.filter_cons, List.sum]
  have hloop : recurringMonthLoop [c3Tx] 1 c3Template ⟨2025, 1, 1⟩
      ⟨2025, 1, 20⟩ ⟨2025, 1, 1⟩ ⟨2025, 1, 1⟩ 121 = 150 := by
    rw [recurringMonthLoop, recurringMonthLoop]
    norm_num [occAmount, occurrenceDate, Dt.ble, Dt.nextMonthFirst, Dt.prevDay,
      daysInMonth, isLeap, c3Template, c3Tx, List.filter_cons, List.find?_cons,
      List.sum]
  have hrta : recurringTemplateAmount [c3Tx] 1 ⟨2025, 1, 1⟩ ⟨2025, 1, 20⟩
      c3Template = 150 := by
    rw [show recurringTemplateAmount [c3Tx] 1 ⟨2025, 1, 1⟩ ⟨2025, 1, 20⟩
        c3Template = recurringMonthLoop [c3Tx] 1 c3Template ⟨2025, 1, 1⟩
        ⟨2025, 1, 20⟩ ⟨2025, 1, 1⟩ ⟨2025, 1, 1⟩ 121 from by
      norm_num [recurringTemplateAmount, Dt.pyMax, Dt.pyMin, Dt.ble, Dt.blt,
        c3Template]]
    exact hloop
  have hr : calculateRecurringTransactionsAmount [c3Tx] [c3Template] 1
      ⟨2025, 1, 1⟩ ⟨2025, 1, 20⟩ "Income" = 150 := by
    have hfil : ([c3Template].filter fun t =>
        t.project_id == 1 && t.type == "Income" && t.is_active)
        = [c3Template] := by decide
    unfold calculateRecurringTransactionsAmount
    rw [hfil]
    simp [hrta]
  have hb : budgetIncome c3Project ⟨2025, 1, 1⟩ ⟨2025, 1, 20⟩ = 0 := by
    norm_num [budgetIncome, c3Project]
  have hfind : [c3Project].find? (fun p => p.id == 1) = some c3Project := by
    decide
  have hpt : (projectTotals [c3Tx] [c3Template] c3Project 1
      ⟨2025, 1, 20⟩).1 = 300 := by
    show actualSum [c3Tx] 1 "Income"
        (calculateStartDate c3Project.start_date ⟨2025, 1, 20⟩) ⟨2025, 1, 20⟩ +
      calculateRecurringTransactionsAmount [c3Tx] [c3Template] 1
        (calculateStartDate c3Project.start_date ⟨2025, 1, 20⟩) ⟨2025, 1, 20⟩
        "Income" +
      budgetIncome c3Project
        (calculateStartDate c3Project.start_date ⟨2025, 1, 20⟩) ⟨2025, 1, 20⟩
      = 300
    have hsd : c3Project.start_date = some ⟨2025, 1, 1⟩ := rfl
    rw [hsd, hcs, ha, hr, hb]
    norm_num
  have hout : (getProjectFinancialData [c3Project] [c3Tx] [c3Template] 1
      ⟨2025, 1, 20⟩).income_month_to_date =
      (projectTotals [c3Tx] [c3Template] c3Project 1 ⟨2025, 1, 20⟩).1 := by
    unfold getProjectFinancialData
    rw [hfind]
  rw [hcs]
  refine ⟨ha, hr, ?_, ?_⟩
  · rw [hout, hpt]
  · rw [hout, hpt]
    norm_num

/-! ## Budget income (C8) -/

/-- The first day of `d`'s month. -/
def firstOfMonth (d : Dt) : Dt := ⟨d.year, d.month, 1⟩

/-- Inclusive count of calendar months from `a`'s month through `b`'s month
(0 when `b`'s month precedes `a`'s), stated arithmetically. -/
def inclusiveMonthCount (a b : Dt) : Nat :=
  12 * b.year + b.month + 1 - (12 * a.year + a.month)

theorem linear_le_ble {a b : Dt} (ham1 : 1 ≤ a.month) (ham2 : a.month ≤ 12)
    (hbm1 : 1 ≤ b.month) (hbm2 : b.month ≤ 12) (had : a.day = 1)
    (hbd : b.day = 1)
    (h : 12 * a.year + a.month ≤ 12 * b.year + b.month) : Dt.ble a b = true := by
  unfold Dt.ble
  split_ifs with h1 h2 <;> simp only [decide_eq_true_eq] <;> omega

/-- `Dt.nextMonthFirst` keeps months in 1–12 and lands on day 1. -/
theorem nextMonthFirst_bounds (cur : Dt) (h : cur.month ≤ 12) :
    1 ≤ (Dt.nextMonthFirst cur).month ∧ (Dt.nextMonthFirst cur).month ≤ 12 ∧
      (Dt.nextMonthFirst cur).day = 1 := by
  unfold Dt.nextMonthFirst
  by_cases h12 : cur.month == 12
  · simp [h12]
  · have : cur.month ≠ 12 := by simpa using h12
    simp [h12]
    omega

/-- The budget month loop counts exactly the inclusive month gap, for
calendar month values and first-of-month days. -/
theorem monthCountLoop_eq (endM : Dt) (he1 : 1 ≤ endM.month)
    (he2 : endM.month ≤ 12) (hed : endM.day = 1) :
    ∀ (g : Nat) (cur : Dt), 1 ≤ cur.month → cur.month ≤ 12 → cur.day = 1 →
      12 * endM.year + endM.month + 1 - (12 * cur.year + cur.month) = g →
      monthCountLoop cur endM = g := by
  intro g
  induction g with
  | zero =>
    intro cur hc1 hc2 hcd hg
    have hble : Dt.ble cur endM = false := by
      by_contra hb
      rw [Bool.not_eq_false] at hb
      have := ble_le_linear hc2 hb
      omega
    have hneg : ¬(cur.month ≤ 12 ∧ Dt.ble cur endM = true) := by
      rw [hble]; simp
    rw [monthCountLoop, dif_neg hneg]
  | succ g ih =>
    intro cur hc1 hc2 hcd hg
    have hle : 12 * cur.year + cur.month ≤ 12 * endM.year + endM.month := by
      omega
    have hble : Dt.ble cur endM = true :=
      linear_le_ble hc1 hc2 he1 he2 hcd hed hle
    rw [monthCountLoop, dif_pos ⟨hc2, hble⟩]
    have hnx := nextMonthFirst_linear cur
    obtain ⟨hn1, hn2, hn3⟩ := nextMonthFirst_bounds cur hc2
    rw [ih (Dt.nextMonthFirst cur) hn1 hn2 hn3 (by omega)]
    omega

/-- Spec-side definition of C8's budget-income rule, following the claim's
words: a set monthly budget times the inclusive month count from
`max(project.start_date, periodStart)`'s first-of-month through the as-of
date's first-of-month; otherwise a set annual budget prorated by the
inclusive day count of the window over 365; monthly takes priority. -/
def specBudgetIncomeC8 (p : Project) (periodStart asOf : Dt) : ℚ :=
  if 0 < p.budget_monthly then
    let anchor :=
      match p.start_date with
      | some sd => firstOfMonth (Dt.pyMax sd periodStart)
      | none => firstOfMonth periodStart
    p.budget_monthly * (inclusiveMonthCount anchor (firstOfMonth asOf) : ℚ)
  else if 0 < p.budget_annual then
    p.budget_annual / 365 *
      (((asOf.toRD : ℤ) - (periodStart.toRD : ℤ) + 1 : ℤ) : ℚ)
  else 0

/-- The amended C8 rule: the month count is anchored at the first of the
project's own start month — not clamped to the reporting window start —
with the window start's month used only when the project has no start
date. -/
def specBudgetIncomeAmended (p : Project) (periodStart asOf : Dt) : ℚ :=
  if 0 < p.budget_monthly then
    let anchor :=
      match p.start_date with
      | some sd => firstOfMonth sd
      | none => firstOfMonth periodStart
    p.budget_monthly * (inclusiveMonthCount anchor (firstOfMonth asOf) : ℚ)
  else if 0 < p.budget_annual then
    p.budget_annual / 365 *
      (((asOf.toRD : ℤ) - (periodStart.toRD : ℤ) + 1 : ℤ) : ℚ)
  else 0

/-- Concrete data for C8: a five-year-old project with a monthly budget. -/
def c8Project : Project :=
  { id := 1, start_date := some ⟨2020, 1, 1⟩, budget_monthly := 1000 }

/-- C8 counterexample: for a project started 2020-01-01 with monthly budget
1000, as of 2025-03-15 the code multiplies by all 63 months since the
project start (63000), while the claim's anchor
`max(project.start_date, periodStart)` gives the 13 months of the trailing
window (13000). -/
theorem c8_counterexample :
    calculateStartDate c8Project.start_date ⟨2025, 3, 15⟩ = ⟨2024, 3, 15⟩ ∧
    budgetIncome c8Project ⟨2024, 3, 15⟩ ⟨2025, 3, 15⟩ = 63000 ∧
    specBudgetIncomeC8 c8Project ⟨2024, 3, 15⟩ ⟨2025, 3, 15⟩ = 13000 ∧
    ((63000 : ℚ) ≠ 13000) := by
  refine ⟨by decide, ?_, ?_, by norm_num⟩
  · have hcount : monthCountLoop ⟨2020, 1, 1⟩ ⟨2025, 3, 1⟩ = 63 :=
      monthCountLoop_eq ⟨2025, 3, 1⟩ (by norm_num) (by norm_num) rfl 63
        ⟨2020, 1, 1⟩ (by norm_num) (by norm_num) rfl (by norm_num)
    norm_num [budgetIncome, c8Project, hcount]
  · norm_num [specBudgetIncomeC8, c8Project, firstOfMonth, Dt.pyMax, Dt.ble,
      inclusiveMonthCount]

/-- C8 (amended): for calendar inputs, the code's budget income equals the
amended rule — monthly budget times the inclusive month count anchored at
the project's own start month (the window start's month only when there is
no project start date), else the annual budget prorated by the inclusive
day count over 365, with the monthly rule taking priority. -/
theorem c8_budget_income_amended (p : Project) (periodStart asOf : Dt)
    (hsd : ∀ sd, p.start_date = some sd → 1 ≤ sd.month ∧ sd.month ≤ 12)
    (hps1 : 1 ≤ periodStart.month) (hps2 : periodStart.month ≤ 12)
    (has1 : 1 ≤ asOf.month) (has2 : asOf.month ≤ 12) :
    budgetIncome p periodStart asOf = specBudgetIncomeAmended p periodStart asOf := by
  unfold budgetIncome specBudgetIncomeAmended
  by_cases hm : 0 < p.budget_monthly
  · rw [if_pos hm, if_pos hm]
    cases hpsd : p.start_date with
    | some sd =>
      obtain ⟨h1, h2⟩ := hsd sd hpsd
      simp only [hpsd]
      rw [monthCountLoop_eq ⟨asOf.year, asOf.month, 1⟩ has1 has2 rfl
        (inclusiveMonthCount (firstOfMonth sd) (firstOfMonth asOf))
        ⟨sd.year, sd.month, 1⟩ h1 h2 rfl rfl]
    | none =>
      simp only [hpsd]
      rw [monthCountLoop_eq ⟨asOf.year, asOf.month, 1⟩ has1 has2 rfl
        (inclusiveMonthCount (firstOfMonth periodStart) (firstOfMonth asOf))
        ⟨periodStart.year, periodStart.month, 1⟩ hps1 hps2 rfl rfl]
  · rw [if_neg hm, if_neg hm]

/-- Concrete data for the C8 witness: the spec's scenario project. -/
def c8WitnessProject : Project :=
  { id := 1, start_date := some ⟨2025, 1, 1⟩, budget_monthly := 1000 }

theorem c8_witness :
    budgetIncome c8WitnessProject ⟨2025, 1, 1⟩ ⟨2025, 3, 15⟩ =
      specBudgetIncomeAmended c8WitnessProject ⟨2025, 1, 1⟩ ⟨2025, 3, 15⟩ ∧
    specBudgetIncomeAmended c8WitnessProject ⟨2025, 1, 1⟩ ⟨2025, 3, 15⟩ =
      3000 := by
  constructor
  · exact c8_budget_income_amended c8WitnessProject ⟨2025, 1, 1⟩ ⟨2025, 3, 15⟩
      (by intro sd h; cases h; exact ⟨by norm_num, by norm_num⟩)
      (by norm_num) (by norm_num) (by norm_num) (by norm_num)
  · norm_num [specBudgetIncomeAmended, c8WitnessProject, firstOfMonth,
      inclusiveMonthCount]

/-! ## Contract period rollover
(`backend/services/contract_period_service.py`) -/

/-- A budget row (`backend/models/budget.py` is not among the sources at
hand; the fields follow `backend/schemas/budget.py` and
`backend/repositories/budget_repository.py`). -/
structure Budget where
  id : Nat
  project_id : Nat
  category : String
  amount : ℚ
  period_type : String := "Annual"
  start_date : Dt
  end_date : Option Dt := none
  is_active : Bool := true
deriving DecidableEq, Repr

/-- An archived contract period (`backend/models/contract_period.py` is not
among the sources at hand; the fields follow their construction in
`create_contract_period`). -/
structure ContractPeriod where
  id : Nat
  project_id : Nat
  start_date : Dt
  end_date : Dt
  contract_year : Nat
  year_index : Nat
  total_income : ℚ
  total_expense : ℚ
  total_profit : ℚ
  budgets_snapshot : List Budget := []
deriving DecidableEq, Repr

/-- A read-only archive row, as constructed by
`_create_read_only_archive`. -/
structure ArchivedContract where
  contract_period_id : Nat
  project_id : Nat
  start_date : Dt
  end_date : Dt
  transaction_count : Nat
  is_read_only : Bool
deriving DecidableEq, Repr

/-- Persistent state of the rollover service: the tables it reads and
writes, plus the autoincrement counter for contract periods. -/
structure CPState where
  projects : List Project
  transactions : List Transaction
  budgets : List Budget
  periods : List ContractPeriod
  archives : List ArchivedContract
  nextPeriodId : Nat
deriving DecidableEq, Repr

/-- `_calculate_financial_summary`: income, expense and profit over the
project's non-fund transactions in the date range. -/
def financialSummary (txs : List Transaction) (pid : Nat) (s e : Dt) :
    ℚ × ℚ × ℚ :=
  let inRange := txs.filter fun tx =>
    tx.project_id == pid && Dt.ble s tx.tx_date && Dt.ble tx.tx_date e &&
    tx.from_fund == false
  let income := ((inRange.filter fun tx => tx.type == "Income").map
    (fun tx => tx.amount)).sum
  let expense := ((inRange.filter fun tx => tx.type == "Expense").map
    (fun tx => tx.amount)).sum
  (income, expense, income - expense)

/-- `create_contract_period`: year and one-based index within the year
(`count_by_year` is Modelled from the spec: the repository counts the
project's existing periods whose contract year equals the end year),
financial summary over the dates, and the stored snapshot. -/
def createContractPeriod (st : CPState) (pid : Nat) (s e : Dt)
    (snapshot : List Budget) : ContractPeriod × CPState :=
  let contractYear := e.year
  let yearCount := (st.periods.filter fun p =>
    p.project_id == pid && p.contract_year == contractYear).length
  let summary := financialSummary st.transactions pid s e
  let cp : ContractPeriod :=
    { id := st.nextPeriodId, project_id := pid, start_date := s, end_date := e,
      contract_year := contractYear, year_index := yearCount + 1,
      total_income := summary.1, total_expense := summary.2.1,
      total_profit := summary.2.2, budgets_snapshot := snapshot }
  (cp, { st with periods := st.periods ++ [cp],
                 nextPeriodId := st.nextPeriodId + 1 })

/-- `_create_read_only_archive`: append the read-only archive row with the
period's transaction count. -/
def createReadOnlyArchive (st : CPState) (cp : ContractPeriod) : CPState :=
  let cnt := (st.transactions.filter fun tx =>
    tx.project_id == cp.project_id && Dt.ble cp.start_date tx.tx_date &&
    Dt.ble tx.tx_date cp.end_date && tx.from_fund == false).length
  { st with archives := st.archives ++
      [⟨cp.id, cp.project_id, cp.start_date, cp.end_date, cnt, true⟩] }

/-- `ContractPeriodService.check_and_renew_contract`.  The project lookup,
`get_by_exact_dates` and the project-date update are Modelled from the
spec: the repositories (`project_repository`, `contract_period_repository`)
are not among the sources at hand; the lookup finds the stored project by
id, `get_by_exact_dates` finds a period with exactly the project's
`(start_date, end_date)` pair, and the update replaces the stored project
row.  Returns the new state and the renewed project, `none` when nothing
was done. -/
def checkAndRenewContract (st : CPState) (pid : Nat) (today : Dt) :
    CPState × Option Project :=
  match st.projects.find? (fun p => p.id == pid) with
  | none => (st, none)
  | some project =>
    if project.is_active = false then (st, none)
    else
      match project.end_date with
      | none => (st, none)
      | some endD =>
        if Dt.blt today endD then (st, none)
        else
          match project.start_date with
          | none => (st, none)
          | some startD =>
            let contractDuration : ℤ := (endD.toRD : ℤ) - (startD.toRD : ℤ)
            let existing := st.periods.find? fun p =>
              p.project_id == pid && p.start_date == startD &&
              p.end_date == endD
            let st1 : CPState :=
              match existing with
              | some _ => st
              | none =>
                let snapshot := st.budgets.filter
                  (fun b => b.project_id == pid)
                let created := createContractPeriod st pid startD endD snapshot
                createReadOnlyArchive created.2 created.1
            let newStart := Dt.addDays endD 1
            let newEnd := Dt.addDaysI newStart contractDuration
            let updated : Project := { project with
              start_date := some newStart
              end_date := some newEnd }
            ({ st1 with projects := st1.projects.map (fun p =>
                if p.id == pid then updated else p) }, some updated)

/-- Two consecutive invocations of the rollover check. -/
def twoRenewCalls (st : CPState) (pid : Nat) (today : Dt) : CPState :=
  (checkAndRenewContract (checkAndRenewContract st pid today).1 pid today).1

theorem filter_nil_of_find?_none {α : Type} (p : α → Bool) (l : List α)
    (h : l.find? p = none) : l.filter p = [] := by
  rw [List.find?_eq_none] at h
  exact List.filter_eq_nil_iff.mpr (fun a ha hpa => h a ha hpa)

/-- Finding by id after replacing every id-match returns the replacement,
provided the id was present. -/
theorem find?_map_replace (l : List Project) (pid : Nat) (u : Project)
    (hu : (u.id == pid) = true)
    (hl : (l.find? (fun p => p.id == pid)).isSome = true) :
    (l.map (fun p => if p.id == pid then u else p)).find?
      (fun p => p.id == pid) = some u := by
  induction l with
  | nil => simp [List.find?] at hl
  | cons a l ih =>
    by_cases ha : (a.id == pid) = true
    · rw [List.map_cons, if_pos ha]
      exact List.find?_cons_of_pos _ hu
    · have ha' : (a.id == pid) = false := by
        rw [← Bool.not_eq_true]; exact ha
      rw [List.map_cons, if_neg ha]
      simp only [List.find?_cons, ha']
      apply ih
      simp only [List.find?_cons, ha'] at hl
      exact hl

/-- A rollover check on a project whose contract has not yet ended does
nothing. -/
theorem checkAndRenew_noop (st : CPState) (pid : Nat) (today : Dt)
    (u : Project) (endD : Dt)
    (hf : st.projects.find? (fun p => p.id == pid) = some u)
    (hua : u.is_active = true)
    (hue : u.end_date = some endD)
    (hlt : Dt.blt today endD = true) :
    checkAndRenewContract st pid today = (st, none) := by
  unfold checkAndRenewContract
  rw [hf]
  simp [hua, hue, hlt]

/-- Concrete data for C6: an active project whose two-day contract ended
long ago. -/
def c6ShortProject : Project :=
  { id := 1, start_date := some ⟨2025, 1, 1⟩, end_date := some ⟨2025, 1, 2⟩ }

def c6ShortState : CPState :=
  { projects := [c6ShortProject], transactions := [], budgets := [],
    periods := [], archives := [], nextPeriodId := 1 }

/-- C6 counterexample: for a 2-day contract (2025-01-01 to 2025-01-02)
checked on 2025-06-01, the renewed end date 2025-01-04 is still in the
past, so the second invocation is not a no-op: it archives a second period
and shifts the project dates a second time (start 2025-01-03 after one
call, 2025-01-05 after two). -/
theorem c6_counterexample :
    ((checkAndRenewContract c6ShortState 1 ⟨2025, 6, 1⟩).1.projects.find?
      (fun p => p.id == 1)).map (fun p => p.start_date) =
        some (some ⟨2025, 1, 3⟩) ∧
    ((twoRenewCalls c6ShortState 1 ⟨2025, 6, 1⟩).projects.find?
      (fun p => p.id == 1)).map (fun p => p.start_date) =
        some (some ⟨2025, 1, 5⟩) ∧
    (twoRenewCalls c6ShortState 1 ⟨2025, 6, 1⟩).periods.length = 2 := by
  refine ⟨?_, ?_, ?_⟩ <;> decide

/-- C6 (amended): for an active ended contract with no pre-existing archive
for its `(start_date, end_date)` pair, a rollover check creates exactly one
ContractPeriod for that pair and shifts the live project's dates once, and
the second invocation is a no-op — provided the renewed end date
(`end + 1 day + duration`) lies after today; otherwise the second call
rolls the contract over again. -/
theorem c6_rollover_amended
    (st : CPState) (pid : Nat) (today : Dt) (project : Project)
    (endD startD : Dt)
    (hfind : st.projects.find? (fun p => p.id == pid) = some project)
    (hact : project.is_active = true)
    (hend : project.end_date = some endD)
    (hstart : project.start_date = some startD)
    (hended : Dt.blt today endD = false)
    (hnoexist : st.periods.find? (fun p => p.project_id == pid &&
      p.start_date == startD && p.end_date == endD) = none)
    (hfuture : Dt.blt today (Dt.addDaysI (Dt.addDays endD 1)
      ((endD.toRD : ℤ) - (startD.toRD : ℤ))) = true) :
    ((checkAndRenewContract st pid today).1.periods.filter (fun p =>
      p.project_id == pid && p.start_date == startD &&
      p.end_date == endD)).length = 1 ∧
    (checkAndRenewContract st pid today).1.projects.find?
      (fun p => p.id == pid) = some { project with
        start_date := some (Dt.addDays endD 1)
        end_date := some (Dt.addDaysI (Dt.addDays endD 1)
          ((endD.toRD : ℤ) - (startD.toRD : ℤ))) } ∧
    checkAndRenewContract (checkAndRenewContract st pid today).1 pid today =
      ((checkAndRenewContract st pid today).1, none) := by
  have hpid : (project.id == pid) = true := by
    have h := List.find?_some hfind
    simpa using h
  have hc1 : checkAndRenewContract st pid today =
      (let created := createContractPeriod st pid startD endD
        (st.budgets.filter (fun b => b.project_id == pid))
       let stc := createReadOnlyArchive created.2 created.1
       let upd : Project := { project with
         start_date := some (Dt.addDays endD 1)
         end_date := some (Dt.addDaysI (Dt.addDays endD 1)
           ((endD.toRD : ℤ) - (startD.toRD : ℤ))) }
       ({ stc with projects := stc.projects.map (fun p =>
          if p.id == pid then upd else p) }, some upd)) := by
    simp only [checkAndRenewContract, hfind, hact, hend, hstart, hended,
      hnoexist, Bool.true_eq_false, if_false, Bool.false_eq_true]
  rw [hc1]
  simp only [createReadOnlyArchive, createContractPeriod]
  have hfind2 : (st.projects.map (fun p =>
      if p.id == pid then ({ project with
        start_date := some (Dt.addDays endD 1)
        end_date := some (Dt.addDaysI (Dt.addDays endD 1)
          ((endD.toRD : ℤ) - (startD.toRD : ℤ))) } : Project)
      else p)).find? (fun p => p.id == pid) = some { project with
        start_date := some (Dt.addDays endD 1)
        end_date := some (Dt.addDaysI (Dt.addDays endD 1)
          ((endD.toRD : ℤ) - (startD.toRD : ℤ))) } :=
    find?_map_replace st.projects pid _ (by simpa using hpid)
      (by rw [hfind]; rfl)
  refine ⟨?_, ?_, ?_⟩
  · rw [List.filter_append, filter_nil_of_find?_none _ _ hnoexist]
    simp
  · exact hfind2
  · exact checkAndRenew_noop _ pid today _ _ hfind2 hact rfl hfuture

/-- Concrete data for the C6 witness: a nine-day contract that ended two
days ago, so the renewed contract ends in the future. -/
def c6WitnessProject : Project :=
  { id := 2, start_date := some ⟨2025, 1, 1⟩, end_date := some ⟨2025, 1, 10⟩ }

def c6WitnessState : CPState :=
  { projects := [c6WitnessProject], transactions := [], budgets := [],
    periods := [], archives := [], nextPeriodId := 1 }

theorem c6_witness :
    Dt.addDays (⟨2025, 1, 10⟩ : Dt) 1 = ⟨2025, 1, 11⟩ ∧
    Dt.addDaysI (Dt.addDays ⟨2025, 1, 10⟩ 1)
      (((⟨2025, 1, 10⟩ : Dt).toRD : ℤ) - ((⟨2025, 1, 1⟩ : Dt).toRD : ℤ)) =
      ⟨2025, 1, 20⟩ ∧
    ((checkAndRenewContract c6WitnessState 2 ⟨2025, 1, 12⟩).1.periods.filter
      (fun p => p.project_id == 2 && p.start_date == ⟨2025, 1, 1⟩ &&
        p.end_date == ⟨2025, 1, 10⟩)).length = 1 ∧
    checkAndRenewContract (checkAndRenewContract c6WitnessState 2
      ⟨2025, 1, 12⟩).1 2 ⟨2025, 1, 12⟩ =
      ((checkAndRenewContract c6WitnessState 2 ⟨2025, 1, 12⟩).1, none) := by
  have h := c6_rollover_amended c6WitnessState 2 ⟨2025, 1, 12⟩
    c6WitnessProject ⟨2025, 1, 10⟩ ⟨2025, 1, 1⟩ (by decide) rfl rfl rfl
    (by decide) rfl (by decide)
  exact ⟨by decide, by decide, h.1, h.2.2⟩

end PM
